import Mathlib

/-!
Verification development for the DrowsyDriver backend.

Shallow embedding of the core logic of the repository:
  * `backend/utils.py` — Eye Aspect Ratio (EAR) computation from facial
    landmarks (`euclidean_distance`, `calculate_EAR`).
  * `backend/app.py` — the per-frame detection state machine
    (`process_frame`), configuration handling (`update_config`),
    statistics (`get_stats`) and reset (`reset_stats`).

Conventions of the embedding: Python floats are modelled as exact
rationals (for the state machine) or reals (for the metric extractor,
whose formula involves square roots); Python's `int()` truncation toward
zero is `pyInt`; a Python function that raises an exception which the
caller catches and converts to `None` is modelled as returning `none`.
-/

/-- A point in pixel coordinates, after `int(lm.x * w), int(lm.y * h)`
conversion in `calculate_EAR`. -/
abbrev Point := ℤ × ℤ

/-- A MediaPipe face landmark: normalized coordinates in the frame.
Mirrors `landmarks.landmark[idx]` access with fields `.x` and `.y`. -/
structure Landmark where
  x : ℚ
  y : ℚ

/-- Python's `int()` applied to a rational: truncation toward zero. -/
def pyInt (q : ℚ) : ℤ := if q < 0 then ⌈q⌉ else ⌊q⌋

/-- Squared Euclidean distance between two integer pixel points; the value
under the square root in `euclidean_distance`. -/
def sq_dist (p q : Point) : ℤ := (p.1 - q.1) ^ 2 + (p.2 - q.2) ^ 2

/-- From `utils.py`: `euclidean_distance(p1, p2)` =
`math.sqrt((p1[0]-p2[0])**2 + (p1[1]-p2[1])**2)`. -/
noncomputable def euclidean_distance (p q : Point) : ℝ :=
  Real.sqrt ((sq_dist p q : ℤ) : ℝ)

/-- From `utils.py`: the MediaPipe indices of the left-eye landmarks. -/
def LEFT_EYE : List ℕ := [33, 160, 158, 133, 153, 144]

/-- From `utils.py`: the MediaPipe indices of the right-eye landmarks. -/
def RIGHT_EYE : List ℕ := [263, 387, 385, 362, 380, 373]

/-- Conversion of a landmark from normalized to pixel coordinates:
`x = int(lm.x * w)`, `y = int(lm.y * h)` in `calculate_EAR`. -/
def to_pixel (w h : ℕ) (lm : Landmark) : Point :=
  (pyInt (lm.x * w), pyInt (lm.y * h))

/-- The `points` list built in `calculate_EAR`: pixel conversions of the
landmarks at indices `LEFT_EYE + RIGHT_EYE`. -/
def eye_points (landmarks : ℕ → Landmark) (w h : ℕ) : List Point :=
  (LEFT_EYE ++ RIGHT_EYE).map (fun idx => to_pixel w h (landmarks idx))

/-- The slice `left_eye = points[:6]` in `calculate_EAR`. -/
def left_eye (landmarks : ℕ → Landmark) (w h : ℕ) : List Point :=
  (eye_points landmarks w h).take 6

/-- The slice `right_eye = points[6:]` in `calculate_EAR`. -/
def right_eye (landmarks : ℕ → Landmark) (w h : ℕ) : List Point :=
  (eye_points landmarks w h).drop 6

/-- The horizontal distance of an eye: distance between point-role 1
(`eye[0]`) and point-role 4 (`eye[3]`), as in `calculate_eye_ear`. -/
noncomputable def horizontal_dist (eye : List Point) : ℝ :=
  euclidean_distance (eye.getD 0 (0, 0)) (eye.getD 3 (0, 0))

/-- From `utils.py`, the inner `calculate_eye_ear(eye)`:
`(vertical1 + vertical2) / (2.0 * horizontal)` with
`vertical1 = distance(eye[1], eye[5])`, `vertical2 = distance(eye[2], eye[4])`,
`horizontal = distance(eye[0], eye[3])`.  In Python the division raises
`ZeroDivisionError` exactly when `horizontal == 0.0`, i.e. when the squared
distance is zero; the exception is caught by `calculate_EAR`'s `except`
block, which returns `None` — modelled here as the `none` branch. -/
noncomputable def calculate_eye_ear (eye : List Point) : Option ℝ :=
  if sq_dist (eye.getD 0 (0, 0)) (eye.getD 3 (0, 0)) = 0 then none
  else some ((euclidean_distance (eye.getD 1 (0, 0)) (eye.getD 5 (0, 0)) +
              euclidean_distance (eye.getD 2 (0, 0)) (eye.getD 4 (0, 0))) /
             (2 * euclidean_distance (eye.getD 0 (0, 0)) (eye.getD 3 (0, 0))))

/-- From `utils.py`: `calculate_EAR(landmarks, frame_shape)`.  Returns
`None` when `landmarks is None` or when either eye's computation raises
(degenerate horizontal distance); otherwise the average of the two eyes'
ratios.  `w`/`h` are the frame width and height from `frame_shape`. -/
noncomputable def calculate_EAR (landmarks : Option (ℕ → Landmark)) (w h : ℕ) :
    Option ℝ :=
  match landmarks with
  | none => none
  | some lms =>
    match calculate_eye_ear (left_eye lms w h),
          calculate_eye_ear (right_eye lms w h) with
    | some left_ear, some right_ear => some ((left_ear + right_ear) / 2)
    | _, _ => none

/-- Formalization of the spec's documented formula (spec section 4.1): for
each eye, `vertical1` = distance of point-roles 2 and 6, `vertical2` =
distance of point-roles 3 and 5, `horizontal` = distance of point-roles 1
and 4, per-eye value `(vertical1 + vertical2) / (2 × horizontal)`.  Written
from the spec's words, to be compared with `calculate_eye_ear`. -/
noncomputable def spec_eye_value (eye : List Point) : ℝ :=
  (euclidean_distance (eye.getD 1 (0, 0)) (eye.getD 5 (0, 0)) +
   euclidean_distance (eye.getD 2 (0, 0)) (eye.getD 4 (0, 0))) /
  (2 * euclidean_distance (eye.getD 0 (0, 0)) (eye.getD 3 (0, 0)))

/-- Formalization of the spec's final metric (spec section 4.1 step 5): the
arithmetic mean of the left-eye and right-eye values.  Written from the
spec's words, to be compared with `calculate_EAR`. -/
noncomputable def spec_metric (landmarks : ℕ → Landmark) (w h : ℕ) : ℝ :=
  (spec_eye_value (left_eye landmarks w h) +
   spec_eye_value (right_eye landmarks w h)) / 2

/-! ## The detection state machine (`backend/app.py`, `backend/config.py`) -/

/-- From `config.py`: the detection-relevant fields of the `Settings`
class (`EAR_THRESHOLD`, `CONSECUTIVE_FRAMES`, `WINDOW_SIZE`).  The
network-related fields (host, port, CORS) are glue and not modelled. -/
structure Settings where
  EAR_THRESHOLD : ℚ
  CONSECUTIVE_FRAMES : ℤ
  WINDOW_SIZE : ℤ
  deriving DecidableEq

/-- From `config.py`: `settings = Settings()` with the class defaults
`EAR_THRESHOLD = 0.25`, `CONSECUTIVE_FRAMES = 20`, `WINDOW_SIZE = 10`. -/
def settings : Settings := ⟨1/4, 20, 10⟩

/-- From `app.py`: the `DetectionState` class. -/
structure DetectionState where
  closed_eye_counter : ℕ
  alert_triggered : Bool
  frame_count : ℕ
  drowsy_frames : ℕ
  deriving DecidableEq

/-- From `app.py`: `state = DetectionState()`, the freshly-initialized
state (all counters zero, latch false). -/
def initialState : DetectionState := ⟨0, false, 0, 0⟩

/-- The classification a frame-tick can return: the `status` strings
`"AWAKE"`, `"DROWSY"`, `"NO_FACE"` of `process_frame`, and `"ERROR"`
(called `METRIC_ERROR` in the spec). -/
inductive Status where
  | AWAKE
  | DROWSY
  | NO_FACE
  | METRIC_ERROR
  deriving DecidableEq

/-- The per-frame input to a tick, as `process_frame` distinguishes it:
no face detected (`results.face_landmarks` empty), EAR computation failed
(`calculate_EAR` returned `None`), or a metric value. -/
inductive MetricInput where
  | noFace
  | metricError
  | metric (ear : ℚ)
  deriving DecidableEq

/-- The JSON response body of `process_frame`, minus the glue fields
(`message`, `frame_base64`).  Fields absent from the NO_FACE / ERROR
responses are `none`. -/
structure FrameResult where
  ear : Option ℚ
  status : Status
  alert_triggered : Bool
  closed_eyes_frames : Option ℕ
  frame_count : ℕ
  drowsy_frames : Option ℕ
  deriving DecidableEq

/-- Python's `round(x, n)`: round half to even (banker's rounding) at the
n-th decimal, here factored through rounding to an integer. -/
def round_half_even (q : ℚ) : ℤ :=
  if q - ⌊q⌋ < 1/2 then ⌊q⌋
  else if 1/2 < q - ⌊q⌋ then ⌊q⌋ + 1
  else if 2 ∣ ⌊q⌋ then ⌊q⌋ else ⌊q⌋ + 1

/-- Rounding `round(x, 4)` from `process_frame`'s success response. -/
def round4 (q : ℚ) : ℚ := (round_half_even (q * 10000) : ℚ) / 10000

/-- Rounding `round(x, 2)` from `get_stats`. -/
def round2 (q : ℚ) : ℚ := (round_half_even (q * 100) : ℚ) / 100

/-- Step 5 of `process_frame` (`app.py` lines 128-144): the drowsiness
check, which mutates `closed_eye_counter`, `drowsy_frames` and
`alert_triggered` but not `frame_count`.  The Python code mutates the
fields sequentially (`closed_eye_counter += 1`, then conditionally
`drowsy_frames += 1`, then conditionally `alert_triggered = True`); each
branch below is the accumulated record update of the mutations performed
on the path to it, with each condition read off the state as mutated so
far. -/
def step_metric (c : Settings) (s : DetectionState) (ear : ℚ) : DetectionState :=
  if ear < c.EAR_THRESHOLD then
    if ((s.closed_eye_counter + 1 : ℕ) : ℤ) ≥ c.CONSECUTIVE_FRAMES then
      if ¬ s.alert_triggered then
        { s with closed_eye_counter := s.closed_eye_counter + 1,
                 drowsy_frames := s.drowsy_frames + 1,
                 alert_triggered := true }
      else
        { s with closed_eye_counter := s.closed_eye_counter + 1,
                 drowsy_frames := s.drowsy_frames + 1 }
    else { s with closed_eye_counter := s.closed_eye_counter + 1 }
  else
    { s with closed_eye_counter := 0, alert_triggered := false }

/-- From `app.py`: `process_frame`, the one state-mutating frame-tick.
`frame_count` is incremented first, unconditionally; an unreadable frame
returns early with `alert_triggered: False` and without touching the run
counter or latch; a readable frame runs the drowsiness check and reports
`DROWSY`/`AWAKE` from the post-update latch. -/
def process_frame (c : Settings) (s : DetectionState) (input : MetricInput) :
    FrameResult × DetectionState :=
  let s1 : DetectionState := { s with frame_count := s.frame_count + 1 }
  match input with
  | .noFace =>
    ({ ear := none, status := .NO_FACE, alert_triggered := false,
       closed_eyes_frames := none, frame_count := s1.frame_count,
       drowsy_frames := none }, s1)
  | .metricError =>
    ({ ear := none, status := .METRIC_ERROR, alert_triggered := false,
       closed_eyes_frames := none, frame_count := s1.frame_count,
       drowsy_frames := none }, s1)
  | .metric ear =>
    let s2 := step_metric c s1 ear
    ({ ear := some (round4 ear),
       status := if s2.alert_triggered then .DROWSY else .AWAKE,
       alert_triggered := s2.alert_triggered,
       closed_eyes_frames := some s2.closed_eye_counter,
       frame_count := s2.frame_count,
       drowsy_frames := some s2.drowsy_frames }, s2)

/-- Runs `process_frame` over a list of per-frame inputs, collecting the
returned results and the final state. -/
def run_frames (c : Settings) (s : DetectionState) :
    List MetricInput → List FrameResult × DetectionState
  | [] => ([], s)
  | i :: rest =>
    let r := process_frame c s i
    let rs := run_frames c r.2 rest
    (r.1 :: rs.1, rs.2)

/-- The sequence of states after each tick of a run. -/
def state_trace (c : Settings) (s : DetectionState) :
    List MetricInput → List DetectionState
  | [] => []
  | i :: rest =>
    let s2 := (process_frame c s i).2
    s2 :: state_trace c s2 rest

/-- The parsed body of a `POST /api/config` request: each field may be
present or absent, as tested by `"..." in config` in `update_config`. -/
structure ConfigRequest where
  ear_threshold : Option ℚ
  consecutive_frames : Option ℤ
  window_size : Option ℤ
  deriving DecidableEq

/-- From `app.py`: `update_config`.  Each present field overwrites the
corresponding `settings` field; there is no validation and no rejection
path — the endpoint always answers `{"status": "updated", ...}` with the
new configuration. -/
def update_config (s : Settings) (config : ConfigRequest) : Settings :=
  let sa := match config.ear_threshold with
    | some t => { s with EAR_THRESHOLD := t }
    | none => s
  let sb := match config.consecutive_frames with
    | some n => { sa with CONSECUTIVE_FRAMES := n }
    | none => sa
  match config.window_size with
  | some n => { sb with WINDOW_SIZE := n }
  | none => sb

/-- From `app.py`: `get_stats` — `(frames_processed, drowsy_frames,
drowsy_percentage)` where the percentage is
`(drowsy_frames / max(frame_count, 1)) * 100` if `frame_count > 0` else 0,
rounded to 2 decimal places. -/
def get_stats (s : DetectionState) : ℕ × ℕ × ℚ :=
  let drowsy_percentage : ℚ :=
    if 0 < s.frame_count then
      ((s.drowsy_frames : ℚ) / ((max s.frame_count 1 : ℕ) : ℚ)) * 100
    else 0
  (s.frame_count, s.drowsy_frames, round2 drowsy_percentage)

/-- From `app.py`: `reset_stats` — zeroes all four `DetectionState`
fields. -/
def reset_stats (s : DetectionState) : DetectionState :=
  { s with frame_count := 0, drowsy_frames := 0,
           closed_eye_counter := 0, alert_triggered := false }

/-- The whole mutable server state: the `settings` and `state` globals of
`app.py`. -/
structure Server where
  config : Settings
  st : DetectionState
  deriving DecidableEq

/-- The operations the API exposes that touch (or read) the global state:
a frame-tick, a reset, a configuration update, and a statistics query
(which mutates nothing). -/
inductive Op where
  | tick (i : MetricInput)
  | reset
  | configUpdate (req : ConfigRequest)
  | statsQuery

/-- The state transition each API operation performs on the globals. -/
def apply_op (srv : Server) : Op → Server
  | .tick i => { srv with st := (process_frame srv.config srv.st i).2 }
  | .reset => { srv with st := reset_stats srv.st }
  | .configUpdate req => { srv with config := update_config srv.config req }
  | .statsQuery => srv

/-- The server as it starts: default settings and a fresh state. -/
def initialServer : Server := ⟨settings, initialState⟩

/-! ## Helper lemmas about the state machine -/

/-- The drowsiness check never touches `frame_count`. -/
theorem step_metric_frame_count (c : Settings) (s : DetectionState) (e : ℚ) :
    (step_metric c s e).frame_count = s.frame_count := by
  unfold step_metric
  split_ifs <;> rfl

/-- One drowsiness check increments `drowsy_frames` by at most one. -/
theorem step_metric_drowsy_le (c : Settings) (s : DetectionState) (e : ℚ) :
    (step_metric c s e).drowsy_frames ≤ s.drowsy_frames + 1 := by
  unfold step_metric
  split_ifs <;> simp

/-- A sub-threshold metric increments the closed-run counter by one. -/
theorem step_metric_closed_of_lt (c : Settings) (s : DetectionState) (m : ℚ)
    (hm : m < c.EAR_THRESHOLD) :
    (step_metric c s m).closed_eye_counter = s.closed_eye_counter + 1 := by
  unfold step_metric
  rw [if_pos hm]
  split_ifs <;> rfl

/-- Rounding the rational zero to two decimals gives zero. -/
theorem round2_zero : round2 0 = 0 := by
  norm_num [round2, round_half_even]

/-- Every branch of `process_frame` increments `frame_count` exactly once. -/
theorem process_frame_frame_count (c : Settings) (s : DetectionState)
    (i : MetricInput) :
    (process_frame c s i).2.frame_count = s.frame_count + 1 := by
  cases i with
  | noFace => rfl
  | metricError => rfl
  | metric e => exact step_metric_frame_count c _ e

/-- Every API operation preserves `drowsy_frames ≤ frame_count`. -/
theorem apply_op_preserves_drowsy_le (srv : Server) (op : Op)
    (h : srv.st.drowsy_frames ≤ srv.st.frame_count) :
    (apply_op srv op).st.drowsy_frames ≤ (apply_op srv op).st.frame_count := by
  cases op with
  | tick i =>
    cases i with
    | noFace => exact Nat.le_succ_of_le h
    | metricError => exact Nat.le_succ_of_le h
    | metric e =>
      show (step_metric srv.config _ e).drowsy_frames ≤
           (step_metric srv.config _ e).frame_count
      rw [step_metric_frame_count]
      exact le_trans (step_metric_drowsy_le srv.config _ e)
        (Nat.succ_le_succ h)
  | reset => exact Nat.le_refl 0
  | configUpdate req => exact h
  | statsQuery => exact h

/-! ## The claims -/

/-- C1: with threshold 0.25 and 3 required consecutive frames, the metric
sequence [0.30, 0.20, 0.20, 0.20, 0.30] fed to the tick from the fresh
state yields classifications [AWAKE, AWAKE, AWAKE, DROWSY, AWAKE], the
returned alert flag is true only on the 4th frame (the latch is set
exactly there and cleared by the 5th frame's open eyes), and
`drowsy_frames` is 1 after all five frames. -/
theorem hysteresis_sequence :
    ((run_frames ⟨1/4, 3, 10⟩ initialState
        [.metric (3/10), .metric (1/5), .metric (1/5), .metric (1/5),
         .metric (3/10)]).1.map (·.status) =
      [.AWAKE, .AWAKE, .AWAKE, .DROWSY, .AWAKE]) ∧
    ((run_frames ⟨1/4, 3, 10⟩ initialState
        [.metric (3/10), .metric (1/5), .metric (1/5), .metric (1/5),
         .metric (3/10)]).1.map (·.alert_triggered) =
      [false, false, false, true, false]) ∧
    ((state_trace ⟨1/4, 3, 10⟩ initialState
        [.metric (3/10), .metric (1/5), .metric (1/5), .metric (1/5),
         .metric (3/10)]).map (·.alert_triggered) =
      [false, false, false, true, false]) ∧
    ((run_frames ⟨1/4, 3, 10⟩ initialState
        [.metric (3/10), .metric (1/5), .metric (1/5), .metric (1/5),
         .metric (3/10)]).2.drowsy_frames = 1) := by
  refine ⟨?_, ?_, ?_, ?_⟩ <;>
    norm_num [run_frames, state_trace, process_frame, step_metric, initialState]

/-- C2 counterexample: a configuration update carrying the out-of-range
(non-positive) threshold -1 is not rejected — `update_config` applies it,
so the prior configuration does not remain in effect. -/
theorem update_config_accepts_out_of_range :
    (-1 : ℚ) ≤ 0 ∧
    update_config settings ⟨some (-1), none, none⟩ ≠ settings ∧
    (update_config settings ⟨some (-1), none, none⟩).EAR_THRESHOLD = -1 := by
  refine ⟨by norm_num, ?_, rfl⟩
  intro h
  have : (update_config settings ⟨some (-1), none, none⟩).EAR_THRESHOLD =
      settings.EAR_THRESHOLD := by rw [h]
  simp [update_config, settings] at this
  norm_num at this

/-- C2 amended: `update_config` performs no validation at all — every
field present in the request, in range or not, unconditionally overwrites
the corresponding `Settings` field, and absent fields keep their prior
values; the update is never rejected. -/
theorem update_config_applies_all_fields (s : Settings) (req : ConfigRequest) :
    update_config s req =
      ⟨req.ear_threshold.getD s.EAR_THRESHOLD,
       req.consecutive_frames.getD s.CONSECUTIVE_FRAMES,
       req.window_size.getD s.WINDOW_SIZE⟩ := by
  rcases req with ⟨t, n, w⟩
  cases t <;> cases n <;> cases w <;> rfl

/-- C4: a tick with no metric available returns the NO_FACE (resp.
METRIC_ERROR) classification and leaves `closed_eye_counter` and
`alert_triggered` exactly as they were; and the scenario
[0.20, 0.20, None, 0.20] with 3 required consecutive frames produces the
closed-run sequence [1, 2, 2, 3] and final classification DROWSY. -/
theorem unreadable_frame_carryover :
    (∀ (c : Settings) (s : DetectionState),
      (process_frame c s .noFace).1.status = .NO_FACE ∧
      (process_frame c s .noFace).2.closed_eye_counter = s.closed_eye_counter ∧
      (process_frame c s .noFace).2.alert_triggered = s.alert_triggered ∧
      (process_frame c s .metricError).1.status = .METRIC_ERROR ∧
      (process_frame c s .metricError).2.closed_eye_counter = s.closed_eye_counter ∧
      (process_frame c s .metricError).2.alert_triggered = s.alert_triggered) ∧
    ((state_trace ⟨1/4, 3, 10⟩ initialState
        [.metric (1/5), .metric (1/5), .noFace, .metric (1/5)]).map
        (·.closed_eye_counter) = [1, 2, 2, 3]) ∧
    ((run_frames ⟨1/4, 3, 10⟩ initialState
        [.metric (1/5), .metric (1/5), .noFace, .metric (1/5)]).1.map
        (·.status) = [.AWAKE, .AWAKE, .NO_FACE, .DROWSY]) := by
  refine ⟨fun _ _ => ⟨rfl, rfl, rfl, rfl, rfl, rfl⟩, ?_, ?_⟩ <;>
    norm_num [run_frames, state_trace, process_frame, step_metric, initialState]

/-- C6: `frame_count` grows by exactly one on every tick, unreadable
frames included, so a run of N ticks from a state with `frame_count = t`
ends with `frame_count = t + N`. -/
theorem total_frames_counts_all_ticks :
    (∀ (c : Settings) (s : DetectionState) (i : MetricInput),
      (process_frame c s i).2.frame_count = s.frame_count + 1) ∧
    (∀ (c : Settings) (s : DetectionState) (inputs : List MetricInput),
      (run_frames c s inputs).2.frame_count = s.frame_count + inputs.length) := by
  refine ⟨process_frame_frame_count, fun c s inputs => ?_⟩
  induction inputs generalizing s with
  | nil => simp [run_frames]
  | cons i rest ih =>
    show (run_frames c (process_frame c s i).2 rest).2.frame_count = _
    rw [ih, process_frame_frame_count]
    simp
    omega

/-- C7: `get_stats` returns `frame_count`, `drowsy_frames`, and the
percentage `100 × drowsy_frames / max(frame_count, 1)` rounded to two
decimal places, with the percentage defined to be exactly 0 when
`frame_count = 0` (no division is attempted). -/
theorem get_stats_formula (s : DetectionState) :
    get_stats s = (s.frame_count, s.drowsy_frames,
      if s.frame_count = 0 then 0
      else round2 (100 * (s.drowsy_frames : ℚ) /
                   ((max s.frame_count 1 : ℕ) : ℚ))) := by
  unfold get_stats
  rcases Nat.eq_zero_or_pos s.frame_count with h0 | hpos
  · rw [h0]
    norm_num [round2_zero]
  · rw [if_pos hpos, if_neg (by omega)]
    refine Prod.ext rfl (Prod.ext rfl ?_)
    show round2 _ = round2 _
    congr 1
    ring

/-- C8: reset zeroes all four state fields (yielding exactly the fresh
state), leaves the configuration untouched, makes `get_stats` report
(0, 0, 0), and a next tick with a metric below the threshold starts the
closed-run counter at 1. -/
theorem reset_behavior (srv : Server) :
    (apply_op srv .reset).st = initialState ∧
    (apply_op srv .reset).config = srv.config ∧
    get_stats (apply_op srv .reset).st = (0, 0, 0) ∧
    (∀ m : ℚ, m < srv.config.EAR_THRESHOLD →
      (process_frame (apply_op srv .reset).config (apply_op srv .reset).st
        (.metric m)).2.closed_eye_counter = 1) := by
  refine ⟨rfl, rfl, ?_, fun m hm => ?_⟩
  · show get_stats initialState = (0, 0, 0)
    norm_num [get_stats, initialState, round2_zero]
  · show (step_metric srv.config _ m).closed_eye_counter = 1
    rw [step_metric_closed_of_lt srv.config _ m hm]
    rfl

/-- Witness for C8 at a concrete input: metric 0.20 is below the default
threshold 0.25, and after a reset the next tick with it puts the
closed-run counter at 1. -/
theorem reset_behavior_witness :
    (1 : ℚ)/5 < initialServer.config.EAR_THRESHOLD ∧
    (process_frame (apply_op initialServer .reset).config
      (apply_op initialServer .reset).st
      (.metric (1/5))).2.closed_eye_counter = 1 :=
  ⟨by norm_num [initialServer, settings],
   (reset_behavior initialServer).2.2.2 (1/5)
     (by norm_num [initialServer, settings])⟩

/-- C9: on an unreadable frame (NO_FACE or METRIC_ERROR) the returned
`alert_triggered` field is always `false`, even when the latch in the
state is currently true, while the latch itself is carried over unchanged
in the state — so the reported flag does not reflect the persisted latch
on such frames. -/
theorem unreadable_alert_flag_false :
    ∀ (c : Settings) (s : DetectionState),
      (process_frame c s .noFace).1.alert_triggered = false ∧
      (process_frame c s .metricError).1.alert_triggered = false ∧
      (process_frame c s .noFace).2.alert_triggered = s.alert_triggered ∧
      (process_frame c s .metricError).2.alert_triggered = s.alert_triggered :=
  fun _ _ => ⟨rfl, rfl, rfl, rfl⟩

/-- C10: from the freshly-started server, any sequence of API operations
(frame-ticks, resets, configuration updates, statistics queries) keeps
`drowsy_frames ≤ frame_count`; both counters are naturals, hence
non-negative by construction. -/
theorem drowsy_le_total_invariant (ops : List Op) :
    (ops.foldl apply_op initialServer).st.drowsy_frames ≤
    (ops.foldl apply_op initialServer).st.frame_count := by
  suffices h : ∀ srv : Server, srv.st.drowsy_frames ≤ srv.st.frame_count →
      (ops.foldl apply_op srv).st.drowsy_frames ≤
      (ops.foldl apply_op srv).st.frame_count from
    h initialServer (Nat.le_refl 0)
  induction ops with
  | nil => exact fun srv h => h
  | cons op rest ih =>
    exact fun srv h => ih _ (apply_op_preserves_drowsy_le srv op h)

/-! ## Helper lemmas about the metric extractor -/

/-- A squared distance is non-negative. -/
theorem sq_dist_nonneg (p q : Point) : 0 ≤ sq_dist p q := by
  unfold sq_dist
  positivity

/-- The Euclidean distance vanishes exactly when the squared distance
does. -/
theorem euclidean_distance_eq_zero_iff (p q : Point) :
    euclidean_distance p q = 0 ↔ sq_dist p q = 0 := by
  unfold euclidean_distance
  rw [Real.sqrt_eq_zero (by exact_mod_cast sq_dist_nonneg p q)]
  exact Int.cast_eq_zero

/-- The Euclidean distance is positive exactly when the squared distance
is non-zero. -/
theorem euclidean_distance_pos_iff (p q : Point) :
    0 < euclidean_distance p q ↔ sq_dist p q ≠ 0 := by
  unfold euclidean_distance
  rw [Real.sqrt_pos, Int.cast_pos]
  have := sq_dist_nonneg p q
  omega

/-- A degenerate horizontal pair makes the per-eye computation raise
(return `none`). -/
theorem calculate_eye_ear_none (eye : List Point)
    (h : sq_dist (eye.getD 0 (0, 0)) (eye.getD 3 (0, 0)) = 0) :
    calculate_eye_ear eye = none := by
  unfold calculate_eye_ear
  rw [if_pos h]

/-- A non-degenerate horizontal pair makes the per-eye computation
return exactly the spec's per-eye value. -/
theorem calculate_eye_ear_some (eye : List Point)
    (h : sq_dist (eye.getD 0 (0, 0)) (eye.getD 3 (0, 0)) ≠ 0) :
    calculate_eye_ear eye = some (spec_eye_value eye) := by
  unfold calculate_eye_ear
  rw [if_neg h]
  rfl

/-- A raising left-eye computation makes `calculate_EAR` return `None`. -/
theorem calculate_EAR_none_left (lms : ℕ → Landmark) (w h : ℕ)
    (hl : calculate_eye_ear (left_eye lms w h) = none) :
    calculate_EAR (some lms) w h = none := by
  simp only [calculate_EAR]
  rw [hl]

/-- A raising right-eye computation makes `calculate_EAR` return `None`. -/
theorem calculate_EAR_none_right (lms : ℕ → Landmark) (w h : ℕ)
    (hr : calculate_eye_ear (right_eye lms w h) = none) :
    calculate_EAR (some lms) w h = none := by
  simp only [calculate_EAR]
  rw [hr]
  cases calculate_eye_ear (left_eye lms w h) <;> rfl

/-- C3: whenever the horizontal distance (point-role 1 to point-role 4)
of either eye is zero, `calculate_EAR` signals failure by returning
`None` (the `ZeroDivisionError` is caught) — it never produces a number,
in particular no infinity or NaN can propagate. -/
theorem degenerate_horizontal_gives_none (lms : ℕ → Landmark) (w h : ℕ)
    (hz : horizontal_dist (left_eye lms w h) = 0 ∨
          horizontal_dist (right_eye lms w h) = 0) :
    calculate_EAR (some lms) w h = none := by
  rcases hz with hz | hz
  · exact calculate_EAR_none_left lms w h
      (calculate_eye_ear_none _ ((euclidean_distance_eq_zero_iff _ _).mp hz))
  · exact calculate_EAR_none_right lms w h
      (calculate_eye_ear_none _ ((euclidean_distance_eq_zero_iff _ _).mp hz))

/-- Witness for C3 at a concrete input: with every landmark at the
origin, the left eye's horizontal distance is zero and `calculate_EAR`
returns `None`. -/
theorem degenerate_horizontal_gives_none_witness :
    horizontal_dist (left_eye (fun _ => ⟨0, 0⟩) 100 100) = 0 ∧
    calculate_EAR (some (fun _ => ⟨0, 0⟩)) 100 100 = none := by
  have hz : horizontal_dist (left_eye (fun _ => ⟨0, 0⟩) 100 100) = 0 := by
    unfold horizontal_dist
    rw [euclidean_distance_eq_zero_iff]
    norm_num [left_eye, eye_points, LEFT_EYE, RIGHT_EYE, to_pixel, pyInt,
      sq_dist]
  exact ⟨hz, degenerate_horizontal_gives_none _ 100 100 (Or.inl hz)⟩

/-- C5: whenever both eyes' horizontal distances are strictly positive,
`calculate_EAR` succeeds, and its value is the documented formula — the
arithmetic mean over both eyes of
`(vertical1 + vertical2) / (2 × horizontal)` over the pixel-converted
points — a (finite) real number that is non-negative. -/
theorem metric_matches_documented_formula (lms : ℕ → Landmark) (w h : ℕ)
    (hl : 0 < horizontal_dist (left_eye lms w h))
    (hr : 0 < horizontal_dist (right_eye lms w h)) :
    calculate_EAR (some lms) w h = some (spec_metric lms w h) ∧
    0 ≤ spec_metric lms w h := by
  have hl0 := (euclidean_distance_pos_iff _ _).mp hl
  have hr0 := (euclidean_distance_pos_iff _ _).mp hr
  refine ⟨?_, ?_⟩
  · simp only [calculate_EAR]
    rw [calculate_eye_ear_some _ hl0, calculate_eye_ear_some _ hr0]
    rfl
  · unfold spec_metric spec_eye_value euclidean_distance
    positivity

/-- A concrete landmark fixture for the C5 witness: landmark `i` sits at
normalized x-coordinate `i` with a 1-pixel-wide frame, so its pixel point
is `(i, 0)` and all eye distances are plain integer gaps. -/
def fixture_lms : ℕ → Landmark := fun i => ⟨(i : ℚ), 0⟩

/-- Witness for C5 at a concrete input: on the fixture both horizontal
distances are positive, and `calculate_EAR` equals the documented
formula's value, which is non-negative. -/
theorem metric_matches_documented_formula_witness :
    0 < horizontal_dist (left_eye fixture_lms 1 1) ∧
    0 < horizontal_dist (right_eye fixture_lms 1 1) ∧
    (calculate_EAR (some fixture_lms) 1 1 = some (spec_metric fixture_lms 1 1) ∧
     0 ≤ spec_metric fixture_lms 1 1) := by
  have hl : 0 < horizontal_dist (left_eye fixture_lms 1 1) := by
    unfold horizontal_dist
    rw [euclidean_distance_pos_iff]
    norm_num [left_eye, eye_points, LEFT_EYE, RIGHT_EYE, to_pixel, pyInt,
      sq_dist, fixture_lms]
  have hr : 0 < horizontal_dist (right_eye fixture_lms 1 1) := by
    unfold horizontal_dist
    rw [euclidean_distance_pos_iff]
    norm_num [right_eye, eye_points, LEFT_EYE, RIGHT_EYE, to_pixel, pyInt,
      sq_dist, fixture_lms]
  exact ⟨hl, hr, metric_matches_documented_formula fixture_lms 1 1 hl hr⟩
